import Mathlib

/-!
Verification of the message-handler dispatch core of the kafka-experiement
repository.  The TypeScript sources under `src/` are shallowly embedded:
each handler class becomes a Lean structure holding its mutable fields, and
each method becomes a state-passing function returning
`State × Except String Unit` (`.error` models a thrown exception).
External library calls that the code relies on (`JSON.parse`,
`JSON.stringify`, the network/disk) are parameters of the embedding.
-/

namespace KafkaExp

/-- `RawKafkaMessage` from `src/utils/handlers/types.ts`: the raw message
shape delivered by the broker client. `key` is `string | null`. -/
structure RawKafkaMessage where
  topic : String
  partition : Nat
  offset : String
  timestamp : String
  key : Option String
  value : String
  headers : List (String × String)
deriving Repr, DecidableEq

/-- `HandlerStatus` from `src/utils/handlers/types.ts`. `lastProcessed`
is a nullable timestamp; `Date` values are modelled as `Nat` instants.
`details` is the adapter-specific diagnostic mapping. -/
structure HandlerStatus where
  name : String
  healthy : Bool
  lastProcessed : Option Nat := none
  totalProcessed : Nat
  errors : Nat
  details : List (String × String) := []
deriving Repr, DecidableEq

/-- The statistics fields of `BaseMessageHandler`
(`src/utils/handlers/BaseMessageHandler.ts`): `totalProcessed`, `errors`
and the nullable `lastProcessed` timestamp. -/
structure HandlerStats where
  totalProcessed : Nat := 0
  errors : Nat := 0
  lastProcessed : Option Nat := none
deriving Repr, DecidableEq

namespace BaseMessageHandler

/-- `BaseMessageHandler.updateStats` (BaseMessageHandler.ts lines 25-32):
on success adds `count` to `totalProcessed` and sets `lastProcessed` to the
current time `now`; on failure adds `count` to `errors`. -/
def updateStats (s : HandlerStats) (success : Bool) (count : Nat) (now : Nat) :
    HandlerStats :=
  if success then
    { s with totalProcessed := s.totalProcessed + count, lastProcessed := some now }
  else
    { s with errors := s.errors + count }

/-- The health predicate computed by `BaseMessageHandler.getBaseStatus`
(BaseMessageHandler.ts lines 37-39):
`errors === 0 || totalProcessed / Math.max(errors, 1) > 10`.
JavaScript `/` is real division, modelled exactly over `ℚ`. -/
def healthyCalc (totalProcessed errors : Nat) : Bool :=
  errors == 0 ||
    decide ((10 : ℚ) < (totalProcessed : ℚ) / ((max errors 1 : Nat) : ℚ))

/-- `BaseMessageHandler.getBaseStatus` (BaseMessageHandler.ts lines 34-44). -/
def getBaseStatus (name : String) (s : HandlerStats) : HandlerStatus :=
  { name := name
    healthy := healthyCalc s.totalProcessed s.errors
    lastProcessed := s.lastProcessed
    totalProcessed := s.totalProcessed
    errors := s.errors
    details := [] }

end BaseMessageHandler

/-! ## SqlHandler (src/utils/handlers/sql.handler.ts)

The SQLite table created by `SqlHandler.createTables` has columns
`(topic, partition, offset, message_key, message_value, kafka_timestamp,
processed_at)` plus autoincrement bookkeeping, and the constraint
`UNIQUE(topic, partition, offset)`.  `prepareStatements` prepares an
`INSERT OR IGNORE` statement; running it appends a row unless a row with
the same `(topic, partition, offset)` already exists, in which case
`result.changes` is 0. -/

/-- One row of the `kafka_messages` table (`SqlHandler.createTables`,
sql.handler.ts lines 223-254). -/
structure SqlRow where
  topic : String
  partition : Nat
  offset : String
  message_key : Option String
  message_value : String
  kafka_timestamp : String
  processed_at : String
deriving Repr, DecidableEq

/-- The table contents, in insertion order. -/
abbrev SqlTable := List SqlRow

namespace SqlHandler

/-- The dedup key of a row: the `UNIQUE(topic, partition, offset)`
constraint of `createTables`. -/
def rowKey (r : SqlRow) : String × Nat × String :=
  (r.topic, r.partition, r.offset)

/-- Whether the table already holds a row with the same
`(topic, partition, offset)` key. -/
def hasKey (t : SqlTable) (r : SqlRow) : Bool :=
  t.any fun x => x.topic == r.topic && x.partition == r.partition &&
    x.offset == r.offset

/-- Effect of running the prepared `INSERT OR IGNORE` statement
(`prepareStatements`, sql.handler.ts lines 263-268) on the table: appends
the row unless the unique key is already present.  Returns the new table
and `result.changes` (1 = inserted, 0 = duplicate ignored). -/
def insertOrIgnore (t : SqlTable) (r : SqlRow) : SqlTable × Nat :=
  if hasKey t r then (t, 0) else (t ++ [r], 1)

/-- The mutable state of a `SqlHandler`: whether `initialize` has prepared
the insert statement, the table contents, and the inherited statistics. -/
structure State where
  initialized : Bool
  table : SqlTable
  stats : HandlerStats
deriving Repr, DecidableEq

/-- The row built by `SqlHandler.safeProcessSingle`
(sql.handler.ts lines 66-84): `partition := rawMessage.partition || 0`,
`offset := rawMessage.offset?.toString()` (identity on the string offset),
`message_key := rawMessage.key || null`,
`message_value := JSON.stringify(rawMessage.value)` (the external
`JSON.stringify` is the parameter `stringify`), and
`processed_at := new Date().toISOString()` (the parameter `now`). -/
def rowOfMessage (stringify : String → String) (now : String)
    (m : RawKafkaMessage) : SqlRow :=
  { topic := m.topic
    partition := m.partition
    offset := m.offset
    message_key := m.key
    message_value := stringify m.value
    kafka_timestamp := m.timestamp
    processed_at := now }

/-- `SqlHandler.safeProcessSingle` (sql.handler.ts lines 61-99): throws if
the insert statement was never prepared; otherwise runs the
`INSERT OR IGNORE` and logs inserted vs duplicate.  Neither outcome
touches the statistics counters. -/
def safeProcessSingle (stringify : String → String) (now : String)
    (st : State) (m : RawKafkaMessage) : State × Except String Unit :=
  if st.initialized then
    let (t2, _changes) := insertOrIgnore st.table (rowOfMessage stringify now m)
    ({ st with table := t2 }, .ok ())
  else
    (st, .error "Database not initialized - insertStmt is null")

/-- Dispatch a whole list of messages in order, with a per-message wall
clock `now`. -/
def processAll (stringify : String → String) (now : RawKafkaMessage → String)
    (st : State) (ms : List RawKafkaMessage) : State :=
  ms.foldl (fun s m => (safeProcessSingle stringify (now m) s m).1) st

end SqlHandler

/-! ## FileHandler (src/utils/handlers/file.handler.ts, RawKafkaMessage
version)

`messageHandler` appends one formatted line to the log file and returns.
It never consults or updates the inherited statistics. -/

namespace FileHandler

/-- Mutable state of a `FileHandler`: the log file, modelled as the list
of appended chunks, and the inherited statistics. -/
structure State where
  file : List String
  stats : HandlerStats
deriving Repr, DecidableEq

/-- The line built by `FileHandler.messageHandler` (file.handler.ts lines
27-29): `` `${message.timestamp} [${message.topic}] ${JSON.stringify(message.value)}\n` ``. -/
def logEntry (stringify : String → String) (m : RawKafkaMessage) : String :=
  m.timestamp ++ " [" ++ m.topic ++ "] " ++ stringify m.value ++ "\n"

/-- `FileHandler.messageHandler` (file.handler.ts lines 25-31): logs the
message, appends the log entry to the file via `fs.appendFile`, and
completes.  No statistics update appears in the method body. -/
def messageHandler (stringify : String → String) (st : State)
    (m : RawKafkaMessage) : State × Except String Unit :=
  ({ st with file := st.file ++ [logEntry stringify m] }, .ok ())

end FileHandler

/-! ## ElasticHandler (src/utils/handlers/elastic.handler.ts,
RawKafkaMessage version) -/

namespace ElasticHandler

/-- The flat document built by `ElasticHandler.messageHandler`
(elastic.handler.ts lines 105-113). -/
structure ElasticDoc where
  topic : String
  partition : Nat
  offset : String
  messageKey : Option String
  messageValue : String
  timestamp : String
  headers : List (String × String)
deriving Repr, DecidableEq

/-- Mutable state of an `ElasticHandler`: the index, modelled as an
association of document id to document (id collisions overwrite), plus
the inherited statistics. -/
structure State where
  index : List (String × ElasticDoc)
  stats : HandlerStats
deriving Repr, DecidableEq

/-- `client.index` with an explicit id: overwrite the document under that
id, or add it. -/
def indexDoc (idx : List (String × ElasticDoc)) (id : String)
    (doc : ElasticDoc) : List (String × ElasticDoc) :=
  if idx.any (fun p => p.1 == id) then
    idx.map fun p => if p.1 == id then (id, doc) else p
  else
    idx ++ [(id, doc)]

/-- The document of elastic.handler.ts lines 105-113, all fields copied
directly from the raw message. -/
def docOf (m : RawKafkaMessage) : ElasticDoc :=
  { topic := m.topic, partition := m.partition, offset := m.offset
    messageKey := m.key, messageValue := m.value
    timestamp := m.timestamp, headers := m.headers }

/-- `ElasticHandler.messageHandler` (elastic.handler.ts lines 90-127).
The inner `try { JSON.parse } catch { keep the raw string }` means a
malformed value is NOT an error on this path; with the client reachable
the method indexes the flat document under
`id: message?.offset || Date.now()` and calls `updateStats(true)`.
`now` models both `Date.now()` and the `new Date()` stored by
`updateStats`. -/
def messageHandler (now : Nat) (st : State) (m : RawKafkaMessage) :
    State × Except String Unit :=
  let id := if m.offset == "" then toString now else m.offset
  ({ index := indexDoc st.index id (docOf m)
     stats := BaseMessageHandler.updateStats st.stats true 1 now }, .ok ())

end ElasticHandler

/-! ## RedisHandler (src/utils/handlers/redis.handler.ts) -/

/-- The fields destructured from `JSON.parse(message.value)` by
`RedisHandler.messageHandler` (redis.handler.ts line 67). -/
structure LocationData where
  userId : String
  vehicleId : String
  timeStamp : String
deriving Repr, DecidableEq

namespace RedisHandler

/-- Mutable state of a `RedisHandler`: whether `initialize` connected the
client, the key/value store written by `setEx` (latest write last), and
the statistics counters (`totalProcessed`, the shadowing `errors` field,
and the never-written `lastProcessed`). -/
structure State where
  connected : Bool
  store : List (String × String)
  stats : HandlerStats
deriving Repr, DecidableEq

/-- `RedisHandler.messageHandler` (redis.handler.ts lines 59-98):
throws if the client is not initialized; otherwise `JSON.parse`s the
value (the external parser is the parameter `parse`).  On parse success
it `setEx`es the raw value under the user, vehicle and time keys and
increments `totalProcessed` (it never touches `lastProcessed`).  On any
error it increments `errors` and RE-THROWS the error to its caller. -/
def messageHandler (parse : String → Option LocationData) (st : State)
    (m : RawKafkaMessage) : State × Except String Unit :=
  if st.connected then
    match parse m.value with
    | some loc =>
        ({ st with
            store := st.store ++
              [("location:user:" ++ loc.userId, m.value),
               ("location:vehicle:" ++ loc.vehicleId, m.value),
               ("location:time:" ++ loc.timeStamp, m.value)]
            stats := { st.stats with
              totalProcessed := st.stats.totalProcessed + 1 } }, .ok ())
    | none =>
        ({ st with
            stats := { st.stats with errors := st.stats.errors + 1 } },
         .error "Unexpected token in JSON")
  else
    (st, .error "Redis client not initialized")

/-- `RedisHandler.getStatus` (redis.handler.ts lines 100-113): returns a
hard-coded status object.  The method performs no call on the client, so
its result does not depend on whether the backing store is reachable;
`reachable` is threaded only to expose that independence. -/
def getStatus (name : String) (batchSize flushInterval : Nat)
    (_reachable : Bool) : Except String HandlerStatus :=
  .ok { name := name
        healthy := true
        totalProcessed := 0
        errors := 0
        details := [("connectionInfo", "Connected to Redis"),
                    ("batchSize", toString batchSize),
                    ("flushInterval", toString flushInterval)] }

/-- `RedisHandler.initialize` (redis.handler.ts lines 36-57), named `init`
here: attempts to connect; the catch block logs and RE-THROWS, so an
unreachable store makes the method fail. `reachable` models whether the
Redis server can be reached. -/
def init (reachable : Bool) : Except String Unit :=
  if reachable then .ok () else .error "Redis connect failed"

end RedisHandler

/-! ## FlinkHandler (src/utils/handlers/flink.handler.ts) -/

namespace FlinkHandler

/-- `FlinkHandler.testFlinkConnection` via `httpClient("/overview")`
(flink.handler.ts lines 29-54): throws `HTTP ...` when the Flink
JobManager cannot be reached. -/
def testFlinkConnection (reachable : Bool) : Except String Unit :=
  if reachable then .ok () else .error "HTTP 503: Service Unavailable"

/-- `FlinkHandler.initialize` (flink.handler.ts lines 17-27), named `init`
here: runs the connection test inside `try { ... } catch (error) {
console.log("FlinkHandler initialization error:", error) }`.  The catch
block only logs — the error is NOT re-thrown, so the method completes
normally even when the cluster is unreachable. -/
def init (reachable : Bool) : Except String Unit :=
  match testFlinkConnection reachable with
  | .ok _ => .ok ()
  | .error _ => .ok ()

/-- `FlinkHandler.messageHandler` (flink.handler.ts lines 56-60): only
logs; no state change, no statistics update. -/
def messageHandler (stats : HandlerStats) (_m : RawKafkaMessage) :
    HandlerStats × Except String Unit :=
  (stats, .ok ())

/-- `FlinkHandler.getStatus` (flink.handler.ts lines 62-89): queries the
JobManager inside a try/catch.  On success it returns the base status
with `healthy` forced to `true`; on failure it returns the base status
with `healthy := false`, `lastProcessed := null` and the diagnostic
`details: { 0: "Cannot connect to Flink JobManager" }`.  Every branch
returns, so the method never throws. -/
def getStatus (name : String) (stats : HandlerStats) (reachable : Bool) :
    Except String HandlerStatus :=
  match testFlinkConnection reachable with
  | .ok _ =>
      .ok { BaseMessageHandler.getBaseStatus name stats with healthy := true }
  | .error _ =>
      .ok { BaseMessageHandler.getBaseStatus name stats with
            healthy := false
            lastProcessed := none
            details := [("0", "Cannot connect to Flink JobManager")] }

end FlinkHandler

namespace SqlHandler

/-- `SqlHandler.initialize` (sql.handler.ts lines 30-59), named `init`
here: opens the SQLite database, creates the table, prepares the
statements; the catch block logs and RE-THROWS, so a failure to open the
store makes the method fail.  `openOk` models whether the database file
can be opened. -/
def init (openOk : Bool) : Except String Unit :=
  if openOk then .ok () else .error "SQLITE_CANTOPEN: unable to open database"

/-- `SqlHandler.getStatus` (sql.handler.ts lines 152-198): computes the
base status, then inside a try/catch queries the record count and file
size; on any error it returns the base status with `healthy := false` and
the error message in `details`.  Every branch returns a status, so the
method never throws.  `queryOk` models whether the `SELECT COUNT(*)`
query (and the `fs.statSync`) succeed; `dbSize` the file size. -/
def getStatus (name tableName dbPath : String) (st : State)
    (queryOk : Bool) (dbSize : Nat) : Except String HandlerStatus :=
  let baseStatus := BaseMessageHandler.getBaseStatus name st.stats
  if queryOk then
    .ok { baseStatus with
          details := [("tableName", tableName), ("dbPath", dbPath),
                      ("connected", toString st.initialized),
                      ("recordCount", toString st.table.length),
                      ("dbSizeBytes", toString dbSize)] }
  else
    .ok { baseStatus with
          healthy := false
          details := [("tableName", tableName), ("connected", "false"),
                      ("error", "SQLITE_ERROR: query failed")] }

end SqlHandler

/-! ## Handler registry (src/utils/handlers/handlerSelector.ts)

`getHandler` maps a handler-type identifier to a constructed (not yet
connected) handler instance, merging per-type default options from
`getHandlerOptions` (which reads `process.env`).  The `default` branch
throws `Unknown handler: ${handlerName}. Available: file, sql, elastic`. -/

/-- The `process.env` keys that `getHandlerOptions` and the handler
constructors read. -/
structure Env where
  LOG_FILE_PATH : Option String := none
  DB_TABLE_NAME : Option String := none
  ELASTICSEARCH_URL : Option String := none
  ES_INDEX_NAME : Option String := none
  REDIS_URL : Option String := none
deriving Repr, DecidableEq

/-- JavaScript `a || b` on an optional string: `b` when `a` is absent or
falsy (the empty string). -/
def jsOr (a : Option String) (b : String) : String :=
  match a with
  | some s => if s == "" then b else s
  | none => b

/-- The constructed handler instance `getHandler` returns, with the
configuration fields its constructor actually stored. -/
inductive ConstructedHandler where
  | fileH (name filePath : String)
  | sqlH (name tableName : String)
  | elasticH (name url indexName : String)
  | flinkH (name flinkUrl : String)
  | redisH (name url : String)
deriving Repr, DecidableEq

/-- The identifiers of `MessageHandlerTypes`
(src/utils/handlers/types.ts lines 81-88): every value the `getHandler`
switch recognizes. -/
def validHandlerTypes : List String :=
  ["file", "sql", "sqlite", "elastic", "elasticsearch", "flink", "redis"]

/-- The message of the error thrown by `getHandler`'s default branch
(handlerSelector.ts lines 40-42). -/
def unknownHandlerMessage (handlerName : String) : String :=
  "Unknown handler: " ++ handlerName ++ ". Available: file, sql, elastic"

/-- The handler-type names the default branch's error message advertises
after `Available: ` (handlerSelector.ts line 41). -/
def availableListed : List String := ["file", "sql", "elastic"]

/-- `getHandler` (handlerSelector.ts lines 12-44) composed with
`getHandlerOptions` (lines 49-96) and the constructors' own defaulting:
* `"sql" | "sqlite"` → `new SqlHandler("sqlHandler", config)` whose
  constructor stores `tableName = config.options?.tableName ||
  "kafka_messages"` where `getHandlerOptions` set
  `tableName = process.env.DB_TABLE_NAME || "kafka_messages"`;
* `"file"` → `FileHandler` with
  `filePath = process.env.LOG_FILE_PATH || "./logs/kafka-dac-processed.log"`;
* `"elastic" | "elasticsearch"` → `ElasticHandler` with the url/index
  options; `"flink"` → `FlinkHandler` (its options nest `flinkUrl` one
  level too deep, so the constructor falls back to the default URL);
* `"redis"` → `RedisHandler` (likewise nested, so the url comes from
  `process.env.REDIS_URL || "redis://localhost:6379"`);
* anything else → throws `unknownHandlerMessage`. -/
def getHandler (env : Env) (handlerName : String) :
    Except String ConstructedHandler :=
  match handlerName with
  | "file" =>
      .ok (.fileH "fileHandler"
        (jsOr env.LOG_FILE_PATH "./logs/kafka-dac-processed.log"))
  | "sql" =>
      .ok (.sqlH "sqlHandler" (jsOr env.DB_TABLE_NAME "kafka_messages"))
  | "sqlite" =>
      .ok (.sqlH "sqlHandler" (jsOr env.DB_TABLE_NAME "kafka_messages"))
  | "elastic" =>
      .ok (.elasticH "elasticHandler"
        (jsOr env.ELASTICSEARCH_URL "redis://localhost:6379")
        (jsOr env.ES_INDEX_NAME "kafka-messages"))
  | "elasticsearch" =>
      .ok (.elasticH "elasticHandler"
        (jsOr env.ELASTICSEARCH_URL "redis://localhost:6379")
        (jsOr env.ES_INDEX_NAME "kafka-messages"))
  | "flink" =>
      .ok (.flinkH "flinkHandler" "http://localhost:8081")
  | "redis" =>
      .ok (.redisH "redisHandler" (jsOr env.REDIS_URL "redis://localhost:6379"))
  | _ => .error (unknownHandlerMessage handlerName)

/-- The `initialize()` step of each constructed handler, as dispatched by
`createMessageHandler` (handlerSelector.ts line 103).  `reachable` models
whether the handler's external resource can be reached
(database file openable, Redis server up, Flink JobManager up); the
file and elastic variants establish no connection at this point
(`fs.mkdir` and client construction are assumed to succeed). -/
def initOf (h : ConstructedHandler) (reachable : Bool) : Except String Unit :=
  match h with
  | .fileH _ _ => .ok ()
  | .sqlH _ _ => SqlHandler.init reachable
  | .elasticH _ _ _ => .ok ()
  | .flinkH _ _ => FlinkHandler.init reachable
  | .redisH _ _ => RedisHandler.init reachable

/-- `createMessageHandler` (handlerSelector.ts lines 101-109) as run at
startup: `getHandler` then `await handler.initialize()`.  Errors of
either step propagate. -/
def createMessageHandler (env : Env) (handlerName : String)
    (reachable : Bool) : Except String ConstructedHandler :=
  match getHandler env handlerName with
  | .error e => .error e
  | .ok h =>
      match initOf h reachable with
      | .ok _ => .ok h
      | .error e => .error e

/-- The per-message function `createMessageHandler` returns
(handlerSelector.ts lines 106-108), instantiated at the redis handler:
`async (topic) => { await handler.messageHandler(topic); }`.  The closure
adds NO try/catch — whatever `messageHandler` throws escapes to the
closure's caller. -/
def createdRedisFn (parse : String → Option LocationData)
    (st : RedisHandler.State) (m : RawKafkaMessage) :
    RedisHandler.State × Except String Unit :=
  RedisHandler.messageHandler parse st m

/-- Outcome of the startup sequence: whether the broker subscription was
reached and the process exit code. -/
structure StartOutcome where
  subscribed : Bool
  exitCode : Nat
deriving Repr, DecidableEq

/-- `startServices` (src/consumer.ts lines 44-62): `createMessageHandler`
first, then `kafkaServiceConsumer.startConsumer(...)`; the surrounding
try/catch logs any error and calls `process.exit(1)`, so a failure in
handler construction or in `initialize` aborts before any subscription. -/
def startServices (env : Env) (handlerName : String) (reachable : Bool) :
    StartOutcome :=
  match createMessageHandler env handlerName reachable with
  | .error _ => { subscribed := false, exitCode := 1 }
  | .ok _ => { subscribed := true, exitCode := 0 }

/-! ## Consumer loop (src/utils/kafka/KafkaConsumerService.ts)

`startConsuming`'s `eachMessage` callback builds a `ConsumedMessage`,
looks the topic up in the `messageHandlers` map, awaits the registered
handler if there is one, and otherwise only logs the message.  The whole
body sits in a try/catch that logs errors, so the callback itself always
completes normally. -/

namespace KafkaConsumerService

/-- A registered per-message handler over handler state `σ`. -/
def MessageHandler (σ : Type) : Type :=
  σ → RawKafkaMessage → σ × Except String Unit

/-- `eachMessage` (KafkaConsumerService.ts lines 54-79): look the topic up
among the registered handlers (`messageHandlers.get(topic)`); call the
handler when present, else log `No handler for topic`.  The surrounding
try/catch turns any thrown error into a log line, so the callback
returns normally in every case. -/
def eachMessage {σ : Type}
    (messageHandlers : List (String × MessageHandler σ)) (st : σ)
    (m : RawKafkaMessage) : σ × Except String Unit :=
  match messageHandlers.find? (fun p => p.1 == m.topic) with
  | some (_, handler) =>
      let (st2, _r) := handler st m
      (st2, .ok ())
  | none => (st, .ok ())

end KafkaConsumerService

/-- Run the redis-backed per-message function over a list of raw messages
in delivery order, keeping each call's result. -/
def runRedisAll (parse : String → Option LocationData)
    (st : RedisHandler.State) (ms : List RawKafkaMessage) :
    RedisHandler.State × List (Except String Unit) :=
  match ms with
  | [] => (st, [])
  | m :: rest =>
      let (st2, r) := createdRedisFn parse st m
      let (st3, rs) := runRedisAll parse st2 rest
      (st3, r :: rs)

/-- The number of messages in `ms` whose value `JSON.parse` accepts. -/
def countValid (parse : String → Option LocationData)
    (ms : List RawKafkaMessage) : Nat :=
  (ms.filter fun m => (parse m.value).isSome).length

/-- The number of messages in `ms` whose value `JSON.parse` rejects. -/
def countMalformed (parse : String → Option LocationData)
    (ms : List RawKafkaMessage) : Nat :=
  (ms.filter fun m => (parse m.value).isNone).length

/-! ## Operation sequences

For the counter-monotonicity invariant the observable operations on a live
handler are message processing and status reporting; none of the handler
classes has a reset method, and the status methods build and return a
fresh object without writing any field. -/

/-- One operation delivered to a handler: process a raw message, or serve
a status request. -/
inductive HandlerOp where
  | processMsg (m : RawKafkaMessage)
  | reportStatus
deriving Repr, DecidableEq

/-- The dedup key of a raw message, matching the `UNIQUE(topic,
partition, offset)` constraint. -/
def msgKey (m : RawKafkaMessage) : String × Nat × String :=
  (m.topic, m.partition, m.offset)

namespace RedisHandler

/-- State transition of one operation on a `RedisHandler`:
`messageHandler` for a message; `getStatus` builds a constant object and
writes nothing. -/
def step (parse : String → Option LocationData) (st : State)
    (op : HandlerOp) : State :=
  match op with
  | .processMsg m => (messageHandler parse st m).1
  | .reportStatus => st

/-- Run a sequence of operations on a `RedisHandler`. -/
def run (parse : String → Option LocationData) (st : State)
    (ops : List HandlerOp) : State :=
  ops.foldl (step parse) st

end RedisHandler

namespace ElasticHandler

/-- State transition of one operation on an `ElasticHandler`; each
processed message carries the wall-clock instant `now` used by
`updateStats`. -/
def step (st : State) (op : HandlerOp × Nat) : State :=
  match op.1 with
  | .processMsg m => (messageHandler op.2 st m).1
  | .reportStatus => st

/-- Run a sequence of operations on an `ElasticHandler`. -/
def run (st : State) (ops : List (HandlerOp × Nat)) : State :=
  ops.foldl step st

end ElasticHandler

namespace FileHandler

/-- State transition of one operation on a `FileHandler`. -/
def step (stringify : String → String) (st : State) (op : HandlerOp) :
    State :=
  match op with
  | .processMsg m => (messageHandler stringify st m).1
  | .reportStatus => st

/-- Run a sequence of operations on a `FileHandler`. -/
def run (stringify : String → String) (st : State) (ops : List HandlerOp) :
    State :=
  ops.foldl (step stringify) st

end FileHandler

namespace SqlHandler

/-- State transition of one operation on a `SqlHandler`; each processed
message carries the `processed_at` timestamp string. -/
def step (stringify : String → String) (st : State)
    (op : HandlerOp × String) : State :=
  match op.1 with
  | .processMsg m => (safeProcessSingle stringify op.2 st m).1
  | .reportStatus => st

/-- Run a sequence of operations on a `SqlHandler`. -/
def run (stringify : String → String) (st : State)
    (ops : List (HandlerOp × String)) : State :=
  ops.foldl (step stringify) st

end SqlHandler

/-! ## Concrete demonstration values

Witness inputs: a concrete instance of the external `JSON.parse` and
`JSON.stringify`, one well-formed location payload and one malformed
payload (braces in string literals are written with the `\x7b`/`\x7d`
escapes). -/

/-- The well-formed location payload of the demonstration runs. -/
def validLocationJson : String :=
  "\x7b\"userId\":\"u1\",\"vehicleId\":\"v1\",\"timeStamp\":\"t1\"\x7d"

/-- `JSON.parse` as it behaves on the two demonstration payloads: accepts
the well-formed location payload, rejects the malformed value
`"not-json"` (and anything else that is not the valid payload). -/
def jsonParseDemo : String → Option LocationData := fun s =>
  if s == validLocationJson then
    some { userId := "u1", vehicleId := "v1", timeStamp := "t1" }
  else none

/-- `JSON.stringify` on a plain string without characters needing escape:
wraps it in double quotes. -/
def stringifyDemo (s : String) : String := "\"" ++ s ++ "\""

/-- A concrete well-formed raw message. -/
def validMsg : RawKafkaMessage :=
  { topic := "user-events", partition := 0, offset := "42"
    timestamp := "2025-01-01T00:00:00Z", key := some "u1"
    value := validLocationJson, headers := [] }

/-- A concrete raw message whose value is not JSON-deserializable. -/
def badMsg : RawKafkaMessage :=
  { topic := "user-events", partition := 0, offset := "43"
    timestamp := "2025-01-01T00:00:01Z", key := none
    value := "not-json", headers := [] }

/-- A second well-formed raw message with distinct coordinates. -/
def validMsg2 : RawKafkaMessage :=
  { topic := "user-events", partition := 1, offset := "7"
    timestamp := "2025-01-01T00:00:02Z", key := none
    value := validLocationJson, headers := [] }

/-- A demonstration registry holding only a `user-events` handler whose
state is a bare statistics record. -/
def demoRegistry : List (String × KafkaConsumerService.MessageHandler HandlerStats) :=
  [("user-events", fun st _ => (st, Except.ok ()))]

/-- A concrete message on a topic with no registered handler. -/
def otherTopicMsg : RawKafkaMessage :=
  { topic := "other-topic", partition := 0, offset := "1"
    timestamp := "t", key := none, value := "v", headers := [] }

/-! # Theorems -/

/-- C3: for every pair of counter values, the status computed by
`getBaseStatus` has `healthy = true` iff `errors == 0` or
`totalProcessed / max(errors, 1) > 10` (exact rational division, as
JavaScript computes it); in particular `healthy` is `true` whenever
`errors = 0`, and `healthy` is `false` whenever `errors > 0` and the
error rate `errors / totalProcessed` exceeds `0.1`. -/
theorem C3_health_formula (totalProcessed errors : Nat) :
    (BaseMessageHandler.healthyCalc totalProcessed errors = true ↔
      (errors = 0 ∨
        (10 : ℚ) < (totalProcessed : ℚ) / ((max errors 1 : Nat) : ℚ)))
    ∧ (errors = 0 → BaseMessageHandler.healthyCalc totalProcessed errors = true)
    ∧ (0 < errors → (1 : ℚ) / 10 < (errors : ℚ) / (totalProcessed : ℚ) →
        BaseMessageHandler.healthyCalc totalProcessed errors = false) := by
  refine ⟨?_, ?_, ?_⟩
  · simp [BaseMessageHandler.healthyCalc]
  · intro h
    simp [BaseMessageHandler.healthyCalc, h]
  · intro he h
    have hmax : max errors 1 = errors := Nat.max_eq_left he
    have hepos : (0 : ℚ) < (errors : ℚ) := by exact_mod_cast he
    simp only [BaseMessageHandler.healthyCalc, hmax, Bool.or_eq_false_iff,
      beq_eq_false_iff_ne, ne_eq, decide_eq_false_iff_not, not_lt]
    refine ⟨he.ne', ?_⟩
    by_cases htp : totalProcessed = 0
    · subst htp
      simp
    · have htppos : (0 : ℚ) < (totalProcessed : ℚ) := by
        exact_mod_cast Nat.pos_of_ne_zero htp
      have h1 : (1 : ℚ) / 10 * totalProcessed < errors :=
        (lt_div_iff₀ htppos).mp h
      have h2 : (totalProcessed : ℚ) / errors < 10 := by
        rw [div_lt_iff₀ hepos]
        linarith
      exact le_of_lt h2

/-- C3 witness: with 5 processed messages and 1 error the rate 1/5
exceeds 0.1 and the computed status is unhealthy. -/
theorem C3_health_witness :
    (0 < 1 ∧ (1 : ℚ) / 10 < (1 : ℚ) / (5 : ℚ))
    ∧ BaseMessageHandler.healthyCalc 5 1 = false :=
  ⟨⟨Nat.one_pos, by norm_num⟩,
    (C3_health_formula 5 1).2.2 Nat.one_pos (by norm_num)⟩

/-- C9: delivering the same message to the file-append handler twice
appends its log entry twice: the file ends with the two duplicate lines,
and the number of occurrences of the entry grows by exactly 2 (the
adapter is not idempotent). -/
theorem C9_file_append_not_idempotent (stringify : String → String)
    (st : FileHandler.State) (m : RawKafkaMessage) :
    (FileHandler.messageHandler stringify
        (FileHandler.messageHandler stringify st m).1 m).1.file
      = st.file ++ [FileHandler.logEntry stringify m,
                    FileHandler.logEntry stringify m]
    ∧ (FileHandler.messageHandler stringify
        (FileHandler.messageHandler stringify st m).1 m).1.file.count
          (FileHandler.logEntry stringify m)
      = st.file.count (FileHandler.logEntry stringify m) + 2 := by
  constructor
  · simp [FileHandler.messageHandler]
  · simp [FileHandler.messageHandler, List.count_append]

/-- C10: a message on a topic with no registered handler leaves the
handler state untouched and the `eachMessage` callback completes
normally: the message is logged and dropped, no adapter runs, no error
is raised or recorded. -/
theorem C10_unhandled_topic_dropped {σ : Type}
    (messageHandlers : List (String × KafkaConsumerService.MessageHandler σ))
    (st : σ) (m : RawKafkaMessage)
    (h : messageHandlers.find? (fun p => p.1 == m.topic) = none) :
    KafkaConsumerService.eachMessage messageHandlers st m
      = (st, Except.ok ()) := by
  simp [KafkaConsumerService.eachMessage, h]

/-- C10 witness: a registry holding only a handler for `user-events`
receives a message on topic `other-topic`; the callback returns the state
unchanged with no error. -/
theorem C10_unhandled_topic_witness :
    demoRegistry.find? (fun p => p.1 == otherTopicMsg.topic) = none
    ∧ KafkaConsumerService.eachMessage demoRegistry ({} : HandlerStats)
        otherTopicMsg
      = (({} : HandlerStats), Except.ok ()) :=
  ⟨rfl, C10_unhandled_topic_dropped demoRegistry {} otherTopicMsg rfl⟩

/-! ## SQL insert-or-ignore lemmas (for C2) -/

/-- `hasKey` detects exactly the rows with an equal dedup key. -/
theorem hasKey_iff (t : SqlTable) (r : SqlRow) :
    SqlHandler.hasKey t r = true ↔
      ∃ x ∈ t, SqlHandler.rowKey x = SqlHandler.rowKey r := by
  simp [SqlHandler.hasKey, SqlHandler.rowKey, List.any_eq_true,
    Prod.ext_iff, and_assoc]

/-- The dedup key of the row built from a raw message is the message's
`(topic, partition, offset)` coordinates. -/
theorem rowKey_rowOfMessage (stringify : String → String) (now : String)
    (m : RawKafkaMessage) :
    SqlHandler.rowKey (SqlHandler.rowOfMessage stringify now m) = msgKey m :=
  rfl

/-- Whether the table already stores a row for the message's coordinates
does not depend on `stringify` or on the wall clock. -/
theorem hasKey_rowOfMessage (t : SqlTable) (s₁ s₂ : String → String)
    (n₁ n₂ : String) (m : RawKafkaMessage) :
    SqlHandler.hasKey t (SqlHandler.rowOfMessage s₁ n₁ m)
      = SqlHandler.hasKey t (SqlHandler.rowOfMessage s₂ n₂ m) :=
  rfl

/-- Fresh-key insertion run: processing a pairwise-distinct list of
messages none of whose keys is already in the table appends exactly the
corresponding rows, in order, and touches nothing else. -/
theorem processAll_fresh (stringify : String → String)
    (now : RawKafkaMessage → String) :
    ∀ (ms : List RawKafkaMessage) (t : SqlTable) (stats : HandlerStats),
      ms.Pairwise (fun a b => msgKey a ≠ msgKey b) →
      (∀ m ∈ ms, ¬ ∃ x ∈ t, SqlHandler.rowKey x = msgKey m) →
      SqlHandler.processAll stringify now ⟨true, t, stats⟩ ms
        = ⟨true, t ++ ms.map (fun m => SqlHandler.rowOfMessage stringify (now m) m),
            stats⟩ := by
  intro ms
  induction ms with
  | nil => intro t stats _ _; simp [SqlHandler.processAll]
  | cons m rest ih =>
    intro t stats hdist hfresh
    have hkey : SqlHandler.hasKey t (SqlHandler.rowOfMessage stringify (now m) m)
        = false := by
      rw [← Bool.not_eq_true, hasKey_iff, rowKey_rowOfMessage]
      exact hfresh m (List.mem_cons_self m rest)
    have hstep :
        SqlHandler.safeProcessSingle stringify (now m) ⟨true, t, stats⟩ m
          = (⟨true, t ++ [SqlHandler.rowOfMessage stringify (now m) m], stats⟩,
             Except.ok ()) := by
      simp [SqlHandler.safeProcessSingle, SqlHandler.insertOrIgnore, hkey]
    have hrest :
        ∀ m' ∈ rest,
          ¬ ∃ x ∈ t ++ [SqlHandler.rowOfMessage stringify (now m) m],
            SqlHandler.rowKey x = msgKey m' := by
      intro m' hm' ⟨x, hx, hxk⟩
      rcases List.mem_append.mp hx with hx | hx
      · exact hfresh m' (List.mem_cons_of_mem m hm') ⟨x, hx, hxk⟩
      · have hxm : x = SqlHandler.rowOfMessage stringify (now m) m := by
          simpa using hx
        subst hxm
        rw [rowKey_rowOfMessage] at hxk
        exact (List.pairwise_cons.mp hdist).1 m' hm' hxk
    have := ih (t ++ [SqlHandler.rowOfMessage stringify (now m) m]) stats
      (List.pairwise_cons.mp hdist).2 hrest
    simp only [SqlHandler.processAll, List.foldl_cons] at *
    rw [hstep] at *
    simp only [this, List.map_cons, List.append_assoc, List.singleton_append]

/-- Redelivery run: reprocessing messages whose keys are all already in
the table changes nothing. -/
theorem processAll_dup (stringify : String → String)
    (now : RawKafkaMessage → String) :
    ∀ (ms : List RawKafkaMessage) (t : SqlTable) (stats : HandlerStats),
      (∀ m ∈ ms, ∃ x ∈ t, SqlHandler.rowKey x = msgKey m) →
      SqlHandler.processAll stringify now ⟨true, t, stats⟩ ms
        = ⟨true, t, stats⟩ := by
  intro ms
  induction ms with
  | nil => intro t stats _; simp [SqlHandler.processAll]
  | cons m rest ih =>
    intro t stats hdup
    have hkey : SqlHandler.hasKey t (SqlHandler.rowOfMessage stringify (now m) m)
        = true := by
      rw [hasKey_iff, rowKey_rowOfMessage]
      exact hdup m (List.mem_cons_self m rest)
    have hstep :
        SqlHandler.safeProcessSingle stringify (now m) ⟨true, t, stats⟩ m
          = (⟨true, t, stats⟩, Except.ok ()) := by
      simp [SqlHandler.safeProcessSingle, SqlHandler.insertOrIgnore, hkey]
    have := ih t stats (fun m' hm' => hdup m' (List.mem_cons_of_mem m hm'))
    simp only [SqlHandler.processAll, List.foldl_cons] at *
    rw [hstep]
    exact this

/-- C2: dispatching N valid messages with pairwise-distinct
`(topic, partition, offset)` coordinates to an initialized relational
handler with an empty table stores exactly N rows, and redispatching the
same N messages (with a possibly different wall clock) leaves the table —
indeed the whole handler state — unchanged: the `INSERT OR IGNORE` under
the unique key makes dispatch idempotent. -/
theorem C2_sql_effectively_once (stringify : String → String)
    (now₁ now₂ : RawKafkaMessage → String) (ms : List RawKafkaMessage)
    (stats : HandlerStats)
    (hdist : ms.Pairwise fun a b => msgKey a ≠ msgKey b) :
    (SqlHandler.processAll stringify now₁ ⟨true, [], stats⟩ ms).table.length
        = ms.length
    ∧ SqlHandler.processAll stringify now₂
        (SqlHandler.processAll stringify now₁ ⟨true, [], stats⟩ ms) ms
      = SqlHandler.processAll stringify now₁ ⟨true, [], stats⟩ ms := by
  have h1 := processAll_fresh stringify now₁ ms [] stats hdist
    (by intro m _ ⟨x, hx, _⟩; exact absurd hx (List.not_mem_nil x))
  have hdup : ∀ m ∈ ms,
      ∃ x ∈ ([] : SqlTable)
        ++ ms.map (fun m => SqlHandler.rowOfMessage stringify (now₁ m) m),
        SqlHandler.rowKey x = msgKey m := by
    intro m hm
    exact ⟨SqlHandler.rowOfMessage stringify (now₁ m) m,
      by simpa using List.mem_map_of_mem _ hm,
      rowKey_rowOfMessage stringify (now₁ m) m⟩
  constructor
  · rw [h1]
    simp
  · rw [h1]
    exact processAll_dup stringify now₂ ms _ stats (by simpa using hdup)

/-- C2 witness: two concrete messages with distinct offsets inserted into
an empty table give two rows, and replaying them changes nothing. -/
theorem C2_sql_witness :
    ([validMsg, validMsg2].Pairwise fun a b => msgKey a ≠ msgKey b)
    ∧ (SqlHandler.processAll stringifyDemo (fun _ => "t1")
        ⟨true, [], {}⟩ [validMsg, validMsg2]).table.length = 2
    ∧ SqlHandler.processAll stringifyDemo (fun _ => "t2")
        (SqlHandler.processAll stringifyDemo (fun _ => "t1")
          ⟨true, [], {}⟩ [validMsg, validMsg2]) [validMsg, validMsg2]
      = SqlHandler.processAll stringifyDemo (fun _ => "t1")
          ⟨true, [], {}⟩ [validMsg, validMsg2] := by
  have hdist : [validMsg, validMsg2].Pairwise fun a b => msgKey a ≠ msgKey b := by
    decide
  have h := C2_sql_effectively_once stringifyDemo (fun _ => "t1")
    (fun _ => "t2") [validMsg, validMsg2] {} hdist
  exact ⟨hdist, h.1, h.2⟩

/-! ## Dispatch-function error propagation (for C1) -/

/-- Along a run of the redis-backed dispatch function the client stays
connected and the counters accumulate: `totalProcessed` grows by the
number of well-formed values, `errors` by the number of malformed ones,
and the i-th call's outcome is `ok` exactly when the i-th value parses —
a malformed value makes that call throw to its caller. -/
theorem runRedisAll_spec (parse : String → Option LocationData) :
    ∀ (ms : List RawKafkaMessage) (store : List (String × String))
      (stats : HandlerStats),
      (runRedisAll parse ⟨true, store, stats⟩ ms).1.stats.totalProcessed
          = stats.totalProcessed + countValid parse ms
      ∧ (runRedisAll parse ⟨true, store, stats⟩ ms).1.stats.errors
          = stats.errors + countMalformed parse ms
      ∧ (runRedisAll parse ⟨true, store, stats⟩ ms).2
          = ms.map (fun m =>
              if (parse m.value).isSome then Except.ok ()
              else Except.error "Unexpected token in JSON") := by
  intro ms
  induction ms with
  | nil =>
    intro store stats
    simp [runRedisAll, countValid, countMalformed]
  | cons m rest ih =>
    intro store stats
    cases hp : parse m.value with
    | some loc =>
      have := ih (store ++
        [("location:user:" ++ loc.userId, m.value),
         ("location:vehicle:" ++ loc.vehicleId, m.value),
         ("location:time:" ++ loc.timeStamp, m.value)])
        { stats with totalProcessed := stats.totalProcessed + 1 }
      simp only [runRedisAll, createdRedisFn, RedisHandler.messageHandler,
        if_true, hp, countValid, countMalformed, List.filter_cons,
        Option.isSome_some, Option.isNone_some, List.map_cons] at *
      refine ⟨?_, ?_, ?_⟩
      · rw [this.1]; simp [countValid]; omega
      · rw [this.2.1]; simp [countMalformed]
      · simp [hp, this.2.2]
    | none =>
      have := ih store { stats with errors := stats.errors + 1 }
      simp only [runRedisAll, createdRedisFn, RedisHandler.messageHandler,
        if_true, hp, countValid, countMalformed, List.filter_cons,
        Option.isSome_none, Option.isNone_none, List.map_cons] at *
      refine ⟨?_, ?_, ?_⟩
      · rw [this.1]; simp [countValid]
      · rw [this.2.1]; simp [countMalformed]; omega
      · simp [hp, this.2.2]

/-- C1 counterexample: the per-message function that
`createMessageHandler` returns adds no error handling, so delivering one
concrete malformed message to the redis-backed instance makes the call
throw to its caller instead of returning normally. -/
theorem C1_counterexample :
    (createdRedisFn jsonParseDemo ⟨true, [], {}⟩ badMsg).2
      = Except.error "Unexpected token in JSON"
    ∧ (createdRedisFn jsonParseDemo ⟨true, [], {}⟩ badMsg).1.stats.errors
      = 1 := by
  constructor <;> rfl

/-- C1 (amended): for any sequence with N well-formed and K malformed
values delivered to the redis-backed per-message function, afterwards
`totalProcessed` grew by N and `errors` by K; each malformed message's
call throws to the caller of the function returned by
`createMessageHandler` (it is NOT swallowed there), and it is the
consumer loop's `eachMessage` try/catch that always returns normally,
keeping the subscription loop alive. -/
theorem C1_dispatch_counts_and_throws
    (parse : String → Option LocationData) (ms : List RawKafkaMessage)
    (store : List (String × String)) (stats : HandlerStats) :
    (runRedisAll parse ⟨true, store, stats⟩ ms).1.stats.totalProcessed
        = stats.totalProcessed + countValid parse ms
    ∧ (runRedisAll parse ⟨true, store, stats⟩ ms).1.stats.errors
        = stats.errors + countMalformed parse ms
    ∧ (runRedisAll parse ⟨true, store, stats⟩ ms).2
        = ms.map (fun m =>
            if (parse m.value).isSome then Except.ok ()
            else Except.error "Unexpected token in JSON")
    ∧ (∀ (handlers :
          List (String × KafkaConsumerService.MessageHandler RedisHandler.State))
        (st : RedisHandler.State) (m : RawKafkaMessage),
        (KafkaConsumerService.eachMessage handlers st m).2 = Except.ok ()) := by
  obtain ⟨h1, h2, h3⟩ := runRedisAll_spec parse ms store stats
  refine ⟨h1, h2, h3, ?_⟩
  intro handlers st m
  unfold KafkaConsumerService.eachMessage
  cases handlers.find? (fun p => p.1 == m.topic) with
  | none => rfl
  | some p => rfl

/-- C4 counterexample: the file handler processes a concrete message
successfully (the call returns normally and the line is appended), yet
`totalProcessed` stays 0 and `lastProcessed` stays null — its
`messageHandler` never calls `updateStats`. -/
theorem C4_counterexample :
    (FileHandler.messageHandler stringifyDemo ⟨[], {}⟩ validMsg).2
      = Except.ok ()
    ∧ (FileHandler.messageHandler stringifyDemo ⟨[], {}⟩ validMsg).1.file.length
      = 1
    ∧ (FileHandler.messageHandler stringifyDemo ⟨[], {}⟩ validMsg).1.stats.totalProcessed
      = 0
    ∧ (FileHandler.messageHandler stringifyDemo ⟨[], {}⟩ validMsg).1.stats.lastProcessed
      = none := by
  refine ⟨rfl, rfl, rfl, rfl⟩

/-- C4 (amended): `updateStats(true, count)` adds `count` to
`totalProcessed`, sets `lastProcessed` to the current instant and leaves
`errors` unchanged, and the elastic handler's `messageHandler` does
exactly that on each successful message; but the file and flink handlers
process successfully without updating any statistic, and the redis
handler never sets `lastProcessed` at all. -/
theorem C4_success_stats_per_handler :
    (∀ (s : HandlerStats) (count now : Nat),
        (BaseMessageHandler.updateStats s true count now).totalProcessed
            = s.totalProcessed + count
        ∧ (BaseMessageHandler.updateStats s true count now).lastProcessed
            = some now
        ∧ (BaseMessageHandler.updateStats s true count now).errors = s.errors)
    ∧ (∀ (now : Nat) (st : ElasticHandler.State) (m : RawKafkaMessage),
        (ElasticHandler.messageHandler now st m).2 = Except.ok ()
        ∧ (ElasticHandler.messageHandler now st m).1.stats.totalProcessed
            = st.stats.totalProcessed + 1
        ∧ (ElasticHandler.messageHandler now st m).1.stats.lastProcessed
            = some now
        ∧ (ElasticHandler.messageHandler now st m).1.stats.errors
            = st.stats.errors)
    ∧ (∀ (stringify : String → String) (st : FileHandler.State)
        (m : RawKafkaMessage),
        (FileHandler.messageHandler stringify st m).2 = Except.ok ()
        ∧ (FileHandler.messageHandler stringify st m).1.stats = st.stats)
    ∧ (∀ (stats : HandlerStats) (m : RawKafkaMessage),
        FlinkHandler.messageHandler stats m = (stats, Except.ok ()))
    ∧ (∀ (parse : String → Option LocationData) (st : RedisHandler.State)
        (m : RawKafkaMessage),
        (RedisHandler.messageHandler parse st m).1.stats.lastProcessed
          = st.stats.lastProcessed) := by
  refine ⟨?_, ?_, ?_, ?_, ?_⟩
  · intro s count now
    refine ⟨rfl, rfl, rfl⟩
  · intro now st m
    refine ⟨rfl, ?_, rfl, rfl⟩
    simp [ElasticHandler.messageHandler, BaseMessageHandler.updateStats]
  · intro stringify st m
    exact ⟨rfl, rfl⟩
  · intro stats m
    rfl
  · intro parse st m
    by_cases hc : st.connected
    · cases hp : parse m.value <;>
        simp [RedisHandler.messageHandler, hc, hp]
    · simp [RedisHandler.messageHandler, hc]

/-- C5 counterexample: the registry rejects `"carrierpigeon"` before any
subscription, but the thrown message lists only `file, sql, elastic` —
`"sqlite"` (among others) is a recognized identifier the registry
accepts, yet it is absent from the advertised set, so the error does not
list the valid set. -/
theorem C5_counterexample :
    getHandler {} "carrierpigeon"
      = Except.error "Unknown handler: carrierpigeon. Available: file, sql, elastic"
    ∧ unknownHandlerMessage "carrierpigeon"
      = "Unknown handler: carrierpigeon. Available: "
          ++ String.intercalate ", " availableListed
    ∧ "sqlite" ∈ validHandlerTypes
    ∧ getHandler {} "sqlite" = Except.ok (.sqlH "sqlHandler" "kafka_messages")
    ∧ "sqlite" ∉ availableListed := by
  refine ⟨rfl, rfl, by decide, rfl, by decide⟩

/-- C5 (amended): `"sql"` and `"sqlite"` both yield a `SqlHandler`
configured with the table name `DB_TABLE_NAME || "kafka_messages"`; any
identifier outside the recognized set makes `getHandler` throw the
`Unknown handler` error, and startup then exits with code 1 before any
broker subscription — but the error lists only `file, sql, elastic`, a
proper subset of the recognized identifiers. -/
theorem C5_registry (env : Env) :
    getHandler env "sql"
      = Except.ok (.sqlH "sqlHandler" (jsOr env.DB_TABLE_NAME "kafka_messages"))
    ∧ getHandler env "sqlite"
      = Except.ok (.sqlH "sqlHandler" (jsOr env.DB_TABLE_NAME "kafka_messages"))
    ∧ (∀ n, n ∉ validHandlerTypes →
        getHandler env n = Except.error (unknownHandlerMessage n)
        ∧ ∀ reachable, startServices env n reachable
            = { subscribed := false, exitCode := 1 })
    ∧ (∀ n, unknownHandlerMessage n
        = ("Unknown handler: " ++ n)
            ++ (". Available: " ++ String.intercalate ", " availableListed))
    ∧ validHandlerTypes ≠ availableListed := by
  refine ⟨rfl, rfl, ?_, fun n => rfl, by decide⟩
  intro n hn
  have herr : getHandler env n = Except.error (unknownHandlerMessage n) := by
    simp only [validHandlerTypes, List.mem_cons, List.not_mem_nil, or_false,
      not_or] at hn
    obtain ⟨h1, h2, h3, h4, h5, h6, h7⟩ := hn
    unfold getHandler
    split <;> simp_all
  refine ⟨herr, ?_⟩
  intro reachable
  unfold startServices createMessageHandler
  rw [herr]

/-- C5 witness: the unrecognized identifier `"carrierpigeon"` is outside
the valid set; the registry throws and startup exits 1 without
subscribing. -/
theorem C5_registry_witness :
    "carrierpigeon" ∉ validHandlerTypes
    ∧ getHandler {} "carrierpigeon"
      = Except.error (unknownHandlerMessage "carrierpigeon")
    ∧ startServices {} "carrierpigeon" true
      = { subscribed := false, exitCode := 1 } := by
  have h := (C5_registry {}).2.2.1 "carrierpigeon" (by decide)
  exact ⟨by decide, h.1, h.2 true⟩

/-- C6 counterexample: with the Flink JobManager unreachable the
connection test fails, yet `FlinkHandler`'s initialization swallows the
error (its catch block only logs), so startup proceeds to subscribe and
the process does not exit non-zero. -/
theorem C6_counterexample :
    FlinkHandler.testFlinkConnection false
      = Except.error "HTTP 503: Service Unavailable"
    ∧ FlinkHandler.init false = Except.ok ()
    ∧ startServices {} "flink" false = { subscribed := true, exitCode := 0 } :=
  ⟨rfl, rfl, rfl⟩

/-- C6 (amended): the sql and redis adapters re-throw initialization
failures, and `startServices` then exits with code 1 before subscribing;
but the flink adapter catches its connection-test error inside
`initialize`, so with an unreachable cluster startup still subscribes
and exits 0 — the error IS swallowed inside that adapter. -/
theorem C6_init_failure_propagation (env : Env) :
    SqlHandler.init false
      = Except.error "SQLITE_CANTOPEN: unable to open database"
    ∧ RedisHandler.init false = Except.error "Redis connect failed"
    ∧ startServices env "sql" false = { subscribed := false, exitCode := 1 }
    ∧ startServices env "sqlite" false = { subscribed := false, exitCode := 1 }
    ∧ startServices env "redis" false = { subscribed := false, exitCode := 1 }
    ∧ (∀ reachable, FlinkHandler.init reachable = Except.ok ())
    ∧ startServices env "flink" false
        = { subscribed := true, exitCode := 0 } := by
  refine ⟨rfl, rfl, rfl, rfl, rfl, ?_, rfl⟩
  intro reachable
  cases reachable <;> rfl

/-- C7 counterexample: with the backing store unreachable the redis
handler's `getStatus` still reports `healthy: true` (with hard-coded zero
counters); its result ignores the store's state entirely. -/
theorem C7_counterexample :
    RedisHandler.getStatus "redisHandler" 100 5000 false
      = Except.ok
          { name := "redisHandler", healthy := true, lastProcessed := none
            totalProcessed := 0, errors := 0
            details := [("connectionInfo", "Connected to Redis"),
                        ("batchSize", "100"), ("flushInterval", "5000")] }
    ∧ RedisHandler.getStatus "redisHandler" 100 5000 false
      = RedisHandler.getStatus "redisHandler" 100 5000 true :=
  ⟨rfl, rfl⟩

/-- C7 (amended): `getStatus` never throws on the sql, flink and redis
adapters (every execution returns a status object); the sql and flink
adapters report `healthy: false` with a diagnostic in `details` when the
backing store cannot be reached, but the redis adapter returns a constant
`healthy: true` status regardless of the store's state. -/
theorem C7_getStatus_never_throws (name tableName dbPath : String)
    (st : SqlHandler.State) (queryOk : Bool) (dbSize : Nat)
    (stats : HandlerStats) (reachable : Bool) (batchSize flushInterval : Nat) :
    (∃ s, SqlHandler.getStatus name tableName dbPath st queryOk dbSize
        = Except.ok s)
    ∧ (∃ s, SqlHandler.getStatus name tableName dbPath st false dbSize
        = Except.ok s
        ∧ s.healthy = false
        ∧ ("error", "SQLITE_ERROR: query failed") ∈ s.details)
    ∧ (∃ s, FlinkHandler.getStatus name stats reachable = Except.ok s)
    ∧ (∃ s, FlinkHandler.getStatus name stats false = Except.ok s
        ∧ s.healthy = false
        ∧ ("0", "Cannot connect to Flink JobManager") ∈ s.details)
    ∧ (∃ s, RedisHandler.getStatus name batchSize flushInterval reachable
        = Except.ok s ∧ s.healthy = true)
    ∧ RedisHandler.getStatus name batchSize flushInterval false
        = RedisHandler.getStatus name batchSize flushInterval true := by
  refine ⟨?_, ?_, ?_, ?_, ?_, rfl⟩
  · cases queryOk <;> exact ⟨_, rfl⟩
  · exact ⟨_, rfl, rfl, by simp⟩
  · cases reachable <;> exact ⟨_, rfl⟩
  · exact ⟨_, rfl, rfl, by simp⟩
  · exact ⟨_, rfl, rfl⟩

/-! ## Counter monotonicity (for C8) -/

/-- Folding any step function whose single steps never decrease the
counters never decreases them over a whole operation sequence. -/
theorem foldl_stats_mono {σ α : Type} (statsOf : σ → HandlerStats)
    (step : σ → α → σ)
    (h : ∀ s a, (statsOf s).totalProcessed ≤ (statsOf (step s a)).totalProcessed
        ∧ (statsOf s).errors ≤ (statsOf (step s a)).errors) :
    ∀ (ops : List α) (s : σ),
      (statsOf s).totalProcessed ≤ (statsOf (ops.foldl step s)).totalProcessed
      ∧ (statsOf s).errors ≤ (statsOf (ops.foldl step s)).errors := by
  intro ops
  induction ops with
  | nil => intro s; exact ⟨le_refl _, le_refl _⟩
  | cons a rest ih =>
    intro s
    exact ⟨le_trans (h s a).1 (ih (step s a)).1,
           le_trans (h s a).2 (ih (step s a)).2⟩

/-- C8: along any sequence of operations (message processing, status
reporting) on the redis, elastic, file or sql handler — none of which has
a reset — `totalProcessed` and `errors` never decrease. -/
theorem C8_counters_never_decrease :
    (∀ (parse : String → Option LocationData) (st : RedisHandler.State)
        (ops : List HandlerOp),
        st.stats.totalProcessed
            ≤ (RedisHandler.run parse st ops).stats.totalProcessed
        ∧ st.stats.errors ≤ (RedisHandler.run parse st ops).stats.errors)
    ∧ (∀ (st : ElasticHandler.State) (ops : List (HandlerOp × Nat)),
        st.stats.totalProcessed
            ≤ (ElasticHandler.run st ops).stats.totalProcessed
        ∧ st.stats.errors ≤ (ElasticHandler.run st ops).stats.errors)
    ∧ (∀ (stringify : String → String) (st : FileHandler.State)
        (ops : List HandlerOp),
        st.stats.totalProcessed
            ≤ (FileHandler.run stringify st ops).stats.totalProcessed
        ∧ st.stats.errors
            ≤ (FileHandler.run stringify st ops).stats.errors)
    ∧ (∀ (stringify : String → String) (st : SqlHandler.State)
        (ops : List (HandlerOp × String)),
        st.stats.totalProcessed
            ≤ (SqlHandler.run stringify st ops).stats.totalProcessed
        ∧ st.stats.errors ≤ (SqlHandler.run stringify st ops).stats.errors) := by
  refine ⟨?_, ?_, ?_, ?_⟩
  · intro parse st ops
    refine foldl_stats_mono (fun s => s.stats) (RedisHandler.step parse) ?_ ops st
    intro s a
    cases a with
    | reportStatus => exact ⟨le_refl _, le_refl _⟩
    | processMsg m =>
      by_cases hc : s.connected
      · cases hp : parse m.value <;>
          constructor <;>
            simp [RedisHandler.step, RedisHandler.messageHandler, hc, hp]
      · constructor <;>
          simp [RedisHandler.step, RedisHandler.messageHandler, hc]
  · intro st ops
    refine foldl_stats_mono (fun s => s.stats) ElasticHandler.step ?_ ops st
    intro s a
    cases ha : a.1 with
    | reportStatus => simp [ElasticHandler.step, ha]
    | processMsg m =>
      constructor <;>
        simp [ElasticHandler.step, ha, ElasticHandler.messageHandler,
          BaseMessageHandler.updateStats]
  · intro stringify st ops
    refine foldl_stats_mono (fun s => s.stats) (FileHandler.step stringify) ?_
      ops st
    intro s a
    cases a with
    | reportStatus => exact ⟨le_refl _, le_refl _⟩
    | processMsg m => constructor <;> simp [FileHandler.step, FileHandler.messageHandler]
  · intro stringify st ops
    refine foldl_stats_mono (fun s => s.stats) (SqlHandler.step stringify) ?_
      ops st
    intro s a
    cases ha : a.1 with
    | reportStatus => simp [SqlHandler.step, ha]
    | processMsg m =>
      by_cases hi : s.initialized
      · constructor <;>
          simp [SqlHandler.step, ha, SqlHandler.safeProcessSingle, hi]
      · constructor <;>
          simp [SqlHandler.step, ha, SqlHandler.safeProcessSingle, hi]

end KafkaExp
